import Mathlib

/-!
Verification of the background event pipeline of the digefx-monitor-api
repository: the event bus (src/background/event_system.py), the serial
communication manager (src/background/serial_manager.py), the video
escalation and detection handlers
(src/background/handlers/new_video_handler.py and detection_handler.py)
and the status handler (src/background/handlers/status_handler.py).

Shallow-embedding conventions:
- Python datetimes and wall-clock instants are rational numbers.
- Python dict metadata is a list of string pairs.
- Fallible Python code is embedded with Except; a raised exception is an
  Except.error value.
- Thread interleavings are abstracted: loop bodies are embedded as pure
  state-transition functions on explicit state records, and timing facts
  (ack dispatch instants, the boot-grace clock) are explicit parameters.
-/

namespace Digefx

/-- Camera row (models.Camera), restricted to the fields the background
pipeline reads. -/
structure Camera where
  id : Nat
  name : String
  ip_address : String
  is_active : Bool
  enabled_alerts : List String
  deriving DecidableEq

/-- EventType enum (event_system.py lines 18-24): exactly the five members
the source defines.  There is no TRIGGER_DETECTION member. -/
inductive EventType where
  | CAMERA_ALERT_DETECTED
  | CAMERA_PROCESSING_STARTED
  | CAMERA_PROCESSING_STOPPED
  | CAMERA_STATUS_CHANGED
  | NEW_VIDEO_FILE
  deriving DecidableEq

/-- Python attribute access EventType.NAME on the Enum class: the member
when NAME is one of the five defined member names, otherwise the access
raises AttributeError, embedded as none. -/
def EventType.member : String → Option EventType
  | "CAMERA_ALERT_DETECTED" => some .CAMERA_ALERT_DETECTED
  | "CAMERA_PROCESSING_STARTED" => some .CAMERA_PROCESSING_STARTED
  | "CAMERA_PROCESSING_STOPPED" => some .CAMERA_PROCESSING_STOPPED
  | "CAMERA_STATUS_CHANGED" => some .CAMERA_STATUS_CHANGED
  | "NEW_VIDEO_FILE" => some .NEW_VIDEO_FILE
  | _ => none

/-- AlertEvent dataclass (event_system.py lines 26-42). -/
structure AlertEvent where
  event_id : String
  event_type : EventType
  camera_id : Nat
  camera_name : String
  camera_ip : String
  alert_type_code : String
  alert_type_name : String
  alert_type_id : Nat
  severity : String
  confidence : ℚ
  detected_at : ℚ
  metadata : List (String × String)
  image_path : Option String := none
  video_clip_path : Option String := none
  deriving DecidableEq

/-- CameraStatusEvent dataclass (event_system.py lines 44-53). -/
structure CameraStatusEvent where
  event_id : String
  event_type : EventType
  camera_id : Nat
  camera_name : String
  status : String
  timestamp : ℚ
  metadata : List (String × String)
  deriving DecidableEq

/-- NewVideoFileEvent dataclass (event_system.py lines 55-63); camera is
None until the new-video handler resolves it. -/
structure NewVideoFileEvent where
  event_id : String
  event_type : EventType
  camera : Option Camera
  file_path : String
  timestamp : ℚ
  metadata : List (String × String)
  deriving DecidableEq

/-- TriggerDetectionEvent dataclass (event_system.py lines 65-73). -/
structure TriggerDetectionEvent where
  event_id : String
  event_type : EventType
  file_path : String
  timestamp : ℚ
  metadata : List (String × String)
  camera : Option Camera
  deriving DecidableEq

/-- The union of event payloads EventBus.publish accepts (the annotation
on publish at event_system.py line 105). -/
inductive Event where
  | alert (e : AlertEvent)
  | cameraStatus (e : CameraStatusEvent)
  | newVideo (e : NewVideoFileEvent)
  | trigger (e : TriggerDetectionEvent)
  deriving DecidableEq

/-- Field access event.event_type across the union. -/
def Event.event_type : Event → EventType
  | .alert e => e.event_type
  | .cameraStatus e => e.event_type
  | .newVideo e => e.event_type
  | .trigger e => e.event_type

/-- Field access event.event_id across the union. -/
def Event.event_id : Event → String
  | .alert e => e.event_id
  | .cameraStatus e => e.event_id
  | .newVideo e => e.event_id
  | .trigger e => e.event_id

/-- Factory create_trigger_detection_event (event_system.py lines
241-250).  The uuid4 value for event_id is generated at runtime and is
passed as a parameter.  Building the event reads
EventType.TRIGGER_DETECTION, an attribute lookup on the Enum class; when
the lookup fails the Python call raises AttributeError, embedded as
Except.error. -/
def create_trigger_detection_event (uuid : String)
    (video_event : NewVideoFileEvent) : Except String TriggerDetectionEvent :=
  match EventType.member "TRIGGER_DETECTION" with
  | none => Except.error "AttributeError: TRIGGER_DETECTION"
  | some t =>
      Except.ok
        { event_id := uuid
          event_type := t
          file_path := video_event.file_path
          timestamp := video_event.timestamp
          metadata := video_event.metadata
          camera := video_event.camera }

/-- Tail of NewVideoHandler.handle_event (new_video_handler.py lines
104-122): the escalation decision once the pose model has produced
num_detections pose hits over frame_count decoded frames.  The whole body
runs inside the try of handle_event, so a ZeroDivisionError (frame_count
equal to 0) or the error raised by create_trigger_detection_event is
caught by the except clause, which returns False.  The second component
lists the TriggerDetectionEvent values the call publishes on the event
bus. -/
def handle_event_escalation (uuid : String) (event : NewVideoFileEvent)
    (num_detections frame_count : Nat) : Bool × List TriggerDetectionEvent :=
  if frame_count = 0 then
    (false, [])
  else if 1 / 10 ≤ (num_detections : ℚ) / (frame_count : ℚ) then
    match create_trigger_detection_event uuid event with
    | Except.error _ => (false, [])
    | Except.ok t => (true, [t])
  else
    (true, [])

/-- Sample new-video event used by the concrete witnesses. -/
def sampleVideoEvent : NewVideoFileEvent :=
  { event_id := "e1"
    event_type := .NEW_VIDEO_FILE
    camera := none
    file_path := "/data/camera_1/v.mp4"
    timestamp := 0
    metadata := [] }

/-- History entry built by EventBus._add_to_history (event_system.py lines
152-166): the event id, the event type and the event data.  The
wall-clock iso timestamp the source also stores carries no information
the claims use and is omitted. -/
structure HistoryRecord where
  event_id : String
  event_type : EventType
  data : Event
  deriving DecidableEq

/-- State of EventBus (event_system.py lines 81-85): the subscriber
registry and the bounded history.  The constructor fixes _max_history to
1000; it is kept as a field with that default so the bound is explicit in
the theorems. -/
structure EventBus where
  subscribers : EventType → List Nat
  event_history : List HistoryRecord
  max_history : Nat := 1000

/-- EventBus._add_to_history (lines 152-166): append the record, then if
the length exceeds _max_history keep only the last _max_history entries
(the Python slice history[-max:]). -/
def add_to_history (bus : EventBus) (e : Event) : EventBus :=
  let h := bus.event_history ++ [⟨e.event_id, e.event_type, e⟩]
  if h.length > bus.max_history then
    { bus with event_history := h.drop (h.length - bus.max_history) }
  else
    { bus with event_history := h }

/-- EventBus.get_event_history (lines 168-170): the Python slice
history[-limit:], which is the last limit entries for limit at least 1
and the whole list for limit equal to 0. -/
def get_event_history (bus : EventBus) (limit : Nat) : List HistoryRecord :=
  if limit = 0 then bus.event_history
  else bus.event_history.drop (bus.event_history.length - limit)

/-- Whether a handler outcome is a success (used for the error logging
loop at lines 132-137). -/
def isOk : Except String Unit → Bool
  | Except.ok _ => true
  | Except.error _ => false

/-- Result of one EventBus.publish call (lines 105-137).  invocations
records, in order, each handler task created by asyncio.create_task
together with the event it was given; results is what
asyncio.gather(return_exceptions true) collects, an Except.error value
being a handler exception, logged in the result loop and never re-raised;
no_handler_warnings counts the warning logged when the subscriber list is
empty; errors_logged counts the per-handler error log lines. -/
structure PublishResult where
  bus : EventBus
  invocations : List (Nat × Event)
  results : List (Except String Unit)
  no_handler_warnings : Nat
  errors_logged : Nat

/-- EventBus.publish (lines 105-137).  Handlers are identified by ids and
handler_behavior gives each registered handler outcome on an event, an
Except.error modelling the handler raising.  The history append happens
before dispatch; the subscriber list for the event type is read once; a
task wrapping _safe_call_handler is created for every handler; gather
with return_exceptions collects every outcome as a value, so publish
itself always returns normally. -/
def publish (handler_behavior : Nat → Event → Except String Unit)
    (bus : EventBus) (e : Event) : PublishResult :=
  let bus1 := add_to_history bus e
  let handlers := bus1.subscribers e.event_type
  if handlers.isEmpty then
    { bus := bus1
      invocations := []
      results := []
      no_handler_warnings := 1
      errors_logged := 0 }
  else
    let results := handlers.map fun h => handler_behavior h e
    { bus := bus1
      invocations := handlers.map fun h => (h, e)
      results := results
      no_handler_warnings := 0
      errors_logged := (results.filter fun r => !(isOk r)).length }

/-- Event bus with no subscribers and empty history, used by the concrete
witnesses. -/
def emptyBus : EventBus :=
  { subscribers := fun _ => []
    event_history := [] }

/-- MessageType enum (serial_manager.py lines 20-27). -/
inductive MessageType where
  | STATUS_DATA
  | ACK
  | ESP32_READY
  | HEARTBEAT_TIMEOUT
  | DEBUG
  | UNKNOWN
  deriving DecidableEq

/-- Python str.startswith, on the character sequences of the strings. -/
def str_startswith (s p : String) : Bool :=
  s.data.take p.data.length == p.data

/-- SerialManager._identify_message_type (serial_manager.py lines
345-358). -/
def identify_message_type (message : String) : MessageType :=
  if message = "ACK" then .ACK
  else if message = "ESP32_READY" then .ESP32_READY
  else if message = "HEARTBEAT_TIMEOUT" then .HEARTBEAT_TIMEOUT
  else if str_startswith message "DEVICE_ID:" then .STATUS_DATA
  else if str_startswith message "DEBUG:" then .DEBUG
  else .UNKNOWN

/-- Boot-grace allow-list valid_starts (serial_manager.py lines
319-320). -/
def valid_starts : List String :=
  ["DEVICE_ID:", "ACK", "ESP32_READY", "HEARTBEAT_TIMEOUT", "DEBUG:",
   "===", "ESP32 DIGEFX"]

/-- An entry of the response queue (serial_manager.py lines 337-341); the
receive timestamp the source also stores is unused by the claims. -/
structure QueuedMessage where
  type : MessageType
  data : String
  deriving DecidableEq

/-- Capacity of the bounded response queue (serial_manager.py line 49). -/
def response_queue_maxsize : Nat := 100

/-- Reader-side state touched by _process_received_message: the grace
deadline _ignore_garbage_until set by _initialize_serial (line 147), the
bounded response queue and the boot_garbage_filtered counter. -/
structure ReaderState where
  ignore_garbage_until : ℚ
  response_queue : List QueuedMessage
  boot_garbage_filtered : Nat
  deriving DecidableEq

/-- The put(block false) on the response queue (lines 336-343): enqueue
when below capacity, otherwise queue.Full is caught and the message is
dropped with a warning. -/
def enqueue_response (st : ReaderState) (message : String) : ReaderState :=
  if st.response_queue.length < response_queue_maxsize then
    { st with response_queue :=
        st.response_queue ++ [⟨identify_message_type message, message⟩] }
  else
    st

/-- SerialManager._process_received_message (lines 313-343) at wall-clock
instant now: while now is before the grace deadline, a line that starts
with no allow-listed string is silently discarded (counter incremented,
nothing enqueued, early return); every other line is classified and put
on the response queue. -/
def process_received_message (now : ℚ) (st : ReaderState)
    (message : String) : ReaderState :=
  if now < st.ignore_garbage_until then
    if valid_starts.any (fun s => str_startswith message s) then
      enqueue_response st message
    else
      { st with boot_garbage_filtered := st.boot_garbage_filtered + 1 }
  else
    enqueue_response st message

/-- One iteration of SerialManager._callback_loop (lines 263-289): pop the
front response and invoke every callback registered for its type; the
second component records the (callback id, data) invocations. -/
def callback_loop_iter (callbacks : MessageType → List Nat)
    (queue : List QueuedMessage) :
    List QueuedMessage × List (Nat × String) :=
  match queue with
  | [] => ([], [])
  | m :: rest => (rest, (callbacks m.type).map fun c => (c, m.data))

/-- Reader state whose response queue is at capacity, after the grace
deadline; used by the counterexample to claim C8. -/
def fullReaderState : ReaderState :=
  { ignore_garbage_until := 0
    response_queue := List.replicate 100 ⟨MessageType.UNKNOWN, "noise"⟩
    boot_garbage_filtered := 0 }

/-- SerialManager.send_command_sync with wait_for_ack true (serial_manager
lines 375-421), embedded over an abstract timeline.  ack_dispatch_times
lists the instants, measured from the call, at which the callback loop
dispatches a classified Ack to the registered ACK callbacks.  The
temporary ack_callback sets success true and then sets the ack_received
threading.Event, so got_ack, the value of ack_received.wait(timeout), is
true exactly when some Ack dispatch happens within the timeout; success
holds whenever the callback ran at all before it is read, which happens
at instant dereg_time, when the callback is deregistered (dereg_time is
at least the timeout, since the wait returns first).  The call registers
the callback, enqueues the command, waits, deregisters and returns
got_ack and success; no step raises, so this boolean is the only failure
signal the caller sees. -/
def send_command_sync_ack (ack_dispatch_times : List ℚ)
    (timeout dereg_time : ℚ) : Bool :=
  let got_ack := ack_dispatch_times.any fun t => decide (t ≤ timeout)
  let success := ack_dispatch_times.any fun t => decide (t ≤ dereg_time)
  got_ack && success

/-- One queued command (serial_manager.py lines 362-373): the outbound
string and whether a completion callback was supplied to
send_command. -/
structure QueuedCommand where
  command : String
  has_callback : Bool
  deriving DecidableEq

/-- Writer-side state: the unbounded command FIFO, whether the transport
is open (a transport outage is serial_open false, the state the
reconnect path leaves while the port is down), the log of lines actually
written to the transport, and the sent and error counters. -/
structure WriterState where
  command_queue : List QueuedCommand
  serial_open : Bool
  written : List String
  messages_sent : Nat
  errors : Nat
  deriving DecidableEq

/-- SerialManager._send_command_internal (lines 291-311): returns false
when the port is not open (nothing written, a warning logged), otherwise
appends a newline when the command lacks one and writes the line to the
transport. -/
def send_command_internal (st : WriterState) (command : String) :
    Bool × WriterState :=
  if st.serial_open = false then
    (false, st)
  else
    let line := if command.endsWith "\n" then command else command ++ "\n"
    (true, { st with written := st.written ++ [line] })

/-- One iteration of SerialManager._write_loop (lines 228-261): dequeue
the front command (the blocking get with timeout; an empty queue is a
no-op iteration), attempt the write, bump the matching counter, and
invoke the completion callback with the outcome.  The second component is
the dequeued command, the third the argument the callback was invoked
with (none when the command carried no callback).  The dequeued command
is never re-enqueued. -/
def write_loop_iter (st : WriterState) :
    WriterState × Option QueuedCommand × Option Bool :=
  match st.command_queue with
  | [] => (st, none, none)
  | c :: rest =>
      let st1 := { st with command_queue := rest }
      match send_command_internal st1 c.command with
      | (true, st2) =>
          ({ st2 with messages_sent := st2.messages_sent + 1 }, some c,
            if c.has_callback then some true else none)
      | (false, st2) =>
          ({ st2 with errors := st2.errors + 1 }, some c,
            if c.has_callback then some false else none)

/-- Writer state during an outage with one queued command; used by the
counterexample to claim C4. -/
def outageWriterState : WriterState :=
  { command_queue := [{ command := "HEARTBEAT:1700000000", has_callback := true }]
    serial_open := false
    written := []
    messages_sent := 0
    errors := 0 }

/-- DetectionHandler.process_video_parallel (detection_handler.py lines
190-199): the candidate frame indices, every frame of the video whose
timestamp frame_idx / fps lies within one second of some pose-hit
timestamp, in increasing frame order. -/
def candidate_frame_indices (total_frames : Nat) (fps : ℚ)
    (detection_timestamps : List ℚ) : List Nat :=
  (List.range total_frames).filter fun frame_idx =>
    detection_timestamps.any fun det_time =>
      decide (|(frame_idx : ℚ) / fps - det_time| ≤ 1)

/-- The Python slices lst[i : i + k] for i = 0, k, 2k, ...: split a list
into consecutive chunks of size k, the last chunk possibly shorter. -/
def chunk_list (k : Nat) (l : List α) : List (List α) :=
  match k, l with
  | 0, _ => []
  | _, [] => []
  | k + 1, x :: xs =>
      (x :: xs).take (k + 1) :: chunk_list (k + 1) ((x :: xs).drop (k + 1))
termination_by l.length
decreasing_by
  simp only [List.length_drop, List.length_cons]
  omega

/-- DetectionHandler.process_video_parallel (lines 201-203): batch size
max 1 (len(frame_indices) // max_workers) and the batches
frame_indices[i : i + batch_size]. -/
def make_batches (max_workers : Nat) (frame_indices : List Nat) :
    List (List Nat) :=
  let batch_size := max 1 (frame_indices.length / max_workers)
  chunk_list batch_size frame_indices

/-- CameraAlert row (models), restricted to the columns
should_trigger_alert filters on; alert_code is the code of the joined
AlertType row. -/
structure CameraAlertRow where
  camera_id : Nat
  alert_code : String
  triggered_at : ℚ
  deriving DecidableEq

/-- DetectionHandler.should_trigger_alert (detection_handler.py lines
392-417): compute cutoff as now minus the cooldown and query for an
alert row of this camera and alert code with triggered_at strictly after
the cutoff; trigger only when none exists.  The database session is
embedded as the list of stored rows. -/
def should_trigger_alert (db : List CameraAlertRow) (cooldown now : ℚ)
    (camera_id : Nat) (alert_code : String) : Bool :=
  let cutoff := now - cooldown
  !(db.any fun r =>
      (r.camera_id == camera_id) && (r.alert_code == alert_code) &&
        decide (cutoff < r.triggered_at))

/-- DetectionHandler.generate_alerts_from_counts (lines 362-390)
restricted to a single alert type: the alert is created and published
exactly when some frames were processed, count over total_frames reaches
the detection threshold, and should_trigger_alert allows it. -/
def alert_fires (db : List CameraAlertRow) (cooldown threshold now : ℚ)
    (camera_id : Nat) (alert_code : String) (count total_frames : Nat) :
    Bool :=
  (total_frames != 0) &&
    decide (threshold ≤ (count : ℚ) / (total_frames : ℚ)) &&
    should_trigger_alert db cooldown now camera_id alert_code

/-- Status snapshot (status_handler.py lines 25-33 and
_collect_system_status): the seven connectivity booleans. -/
structure SystemStatus where
  pc_online : Bool
  internet_online : Bool
  application_running : Bool
  camera_1 : Bool
  camera_2 : Bool
  camera_3 : Bool
  camera_4 : Bool
  deriving DecidableEq

/-- StatusHandler._status_changed (status_handler.py lines 167-169). -/
def status_changed (current new_status : SystemStatus) : Bool :=
  new_status != current

/-- The Python expression 1 if flag else 0 rendered into the command
string. -/
def statusBit (b : Bool) : String :=
  if b then "1" else "0"

/-- StatusHandler._send_status_to_esp (lines 201-224): the exact STATUS
command string built from a snapshot. -/
def status_command (s : SystemStatus) : String :=
  "STATUS:" ++ String.intercalate ","
    ["PC:" ++ statusBit s.pc_online,
     "INTERNET:" ++ statusBit s.internet_online,
     "APP:" ++ statusBit s.application_running,
     "CAM1:" ++ statusBit s.camera_1,
     "CAM2:" ++ statusBit s.camera_2,
     "CAM3:" ++ statusBit s.camera_3,
     "CAM4:" ++ statusBit s.camera_4]

/-- One cycle of StatusHandler._monitoring_loop (lines 71-93): collect a
snapshot; only when it differs from current_status, update current_status
and send one STATUS command (one transport write through
send_command_sync).  Returns the new current_status and the list of
commands handed to the serial manager during the cycle. -/
def monitoring_cycle (current snapshot : SystemStatus) :
    SystemStatus × List String :=
  if status_changed current snapshot then
    (snapshot, [status_command snapshot])
  else
    (current, [])

/-- Reader state inside the boot-grace window with room in the queue,
used by the concrete witnesses. -/
def graceReaderState : ReaderState :=
  { ignore_garbage_until := 3
    response_queue := []
    boot_garbage_filtered := 0 }

/-- Alert table with one NO_HELMET alert for camera 5 recorded at instant
100, used by the concrete witnesses. -/
def cooldownDb : List CameraAlertRow :=
  [{ camera_id := 5, alert_code := "NO_HELMET", triggered_at := 100 }]

/-- The initial current_status of StatusHandler (status_handler.py lines
25-33). -/
def initialStatus : SystemStatus :=
  { pc_online := true
    internet_online := false
    application_running := true
    camera_1 := false
    camera_2 := false
    camera_3 := false
    camera_4 := false }

/-- A snapshot differing from initialStatus in camera_1, used by the
concrete witnesses. -/
def statusCam1On : SystemStatus :=
  { initialStatus with camera_1 := true }

/-- Appending the history record leaves the subscriber registry
untouched. -/
theorem add_to_history_subscribers (bus : EventBus) (e : Event) :
    (add_to_history bus e).subscribers = bus.subscribers := by
  unfold add_to_history
  dsimp only
  split <;> rfl

/-- The bus publish returns is the one add_to_history produced, in both
the no-subscriber and the fan-out branch. -/
theorem publish_bus_eq (hb : Nat → Event → Except String Unit)
    (bus : EventBus) (e : Event) :
    (publish hb bus e).bus = add_to_history bus e := by
  unfold publish
  dsimp only
  split <;> rfl

/-- Closed form of _add_to_history: the record is appended and the oldest
entries are dropped from the front exactly when the bound would be
exceeded (truncated subtraction makes the drop count 0 otherwise). -/
theorem add_to_history_eq (bus : EventBus) (e : Event) :
    (add_to_history bus e).event_history
      = (bus.event_history
          ++ [({ event_id := e.event_id, event_type := e.event_type,
                 data := e } : HistoryRecord)]).drop
          (bus.event_history.length + 1 - bus.max_history) := by
  unfold add_to_history
  dsimp only
  split
  next hgt =>
    simp [List.length_append]
  next hle =>
    have h0 : bus.event_history.length + 1 - bus.max_history = 0 := by
      simp [List.length_append] at hle
      omega
    simp [h0]

/-- Claim C1: every call to create_trigger_detection_event raises, because
the EventType enum defines no TRIGGER_DETECTION member; consequently, for
every new-video event whose pose-hit ratio reaches the 0.1 escalation
threshold, the escalation tail of NewVideoHandler.handle_event catches the
error and returns False, and no call of the escalation tail ever publishes
a TriggerDetectionEvent on the event bus. -/
theorem C1_trigger_detection_never_published (uuid : String)
    (event : NewVideoFileEvent) (num_detections frame_count : Nat)
    (hfc : frame_count ≠ 0)
    (hratio : 1 / 10 ≤ (num_detections : ℚ) / (frame_count : ℚ)) :
    (∀ u e, ∃ msg, create_trigger_detection_event u e = Except.error msg) ∧
    handle_event_escalation uuid event num_detections frame_count
      = (false, []) ∧
    (∀ u e nd fc, (handle_event_escalation u e nd fc).2 = []) := by
  refine ⟨fun u e => ⟨_, rfl⟩, ?_, ?_⟩
  · unfold handle_event_escalation
    rw [if_neg hfc, if_pos hratio]
    simp [create_trigger_detection_event, EventType.member]
  · intro u e nd fc
    unfold handle_event_escalation
    split
    · rfl
    · split
      · simp [create_trigger_detection_event, EventType.member]
      · rfl

/-- Concrete witness for claim C1: one pose hit over five frames reaches
the 0.1 threshold and the escalation still fails. -/
theorem C1_witness :
    (5 : Nat) ≠ 0 ∧
    (1 : ℚ) / 10 ≤ ((1 : Nat) : ℚ) / ((5 : Nat) : ℚ) ∧
    ((∀ u e, ∃ msg, create_trigger_detection_event u e = Except.error msg) ∧
      handle_event_escalation "uuid-1" sampleVideoEvent 1 5 = (false, []) ∧
      (∀ u e nd fc, (handle_event_escalation u e nd fc).2 = [])) :=
  ⟨by decide, by norm_num,
    C1_trigger_detection_never_published "uuid-1" sampleVideoEvent 1 5
      (by decide) (by norm_num)⟩

/-- Counting a pinned pair through the map that pairs each handler with
the published event. -/
theorem count_map_pair (l : List Nat) (e : Event) (h : Nat) :
    (l.map fun x => (x, e)).count (h, e) = l.count h := by
  induction l with
  | nil => rfl
  | cons a l ih =>
      by_cases hah : a = h <;>
        simp [List.count_cons, ih, hah]

/-- Filtering the mapped handler outcomes counts the same elements as
filtering the handlers by the outcome of their behavior. -/
theorem length_filter_map_eq (l : List Nat) (e : Event)
    (hb : Nat → Event → Except String Unit) :
    (((l.map fun h => hb h e).filter fun r => !(isOk r))).length
      = ((l.filter fun h => !(isOk (hb h e)))).length := by
  induction l with
  | nil => rfl
  | cons a l ih =>
      by_cases ha : isOk (hb a e) <;> simp [ha, ih]

/-- Claim C2: publish invokes each of the N handlers subscribed to the
event type exactly once with the published event, in registry order;
every handler outcome is collected even when some raise, each failure is
logged exactly once, and publish itself returns normally (it is a total
function whose shape does not depend on handler failures). -/
theorem C2_publish_invokes_each_handler_once
    (hb : Nat → Event → Except String Unit) (bus : EventBus) (e : Event) :
    (publish hb bus e).invocations
        = (bus.subscribers e.event_type).map (fun h => (h, e)) ∧
    (publish hb bus e).results
        = (bus.subscribers e.event_type).map (fun h => hb h e) ∧
    (∀ h, (publish hb bus e).invocations.count (h, e)
        = (bus.subscribers e.event_type).count h) ∧
    (publish hb bus e).errors_logged
        = ((bus.subscribers e.event_type).filter
            fun h => !(isOk (hb h e))).length := by
  have hsub := add_to_history_subscribers bus e
  by_cases hemp : (bus.subscribers e.event_type).isEmpty
  · have h0 : bus.subscribers e.event_type = [] := by
      simpa [List.isEmpty_iff] using hemp
    simp [publish, hsub, h0]
  · refine ⟨?_, ?_, ?_, ?_⟩
    · simp [publish, hsub, hemp]
    · simp [publish, hsub, hemp]
    · intro h
      simp [publish, hsub, hemp, count_map_pair]
    · simp [publish, hsub, hemp, length_filter_map_eq]

/-- Claim C7: after every publish the event history holds at most
max_history entries (1000 by the constructor default, recorded in the
last conjunct), eviction is oldest-first (the new history is the old one
with the new record appended and the excess dropped from the front), and
get_event_history always returns a suffix of the history, that is, the
most recently published events. -/
theorem C7_history_bounded_oldest_first
    (hb : Nat → Event → Except String Unit) (bus : EventBus) (e : Event) :
    (publish hb bus e).bus.event_history
        = (bus.event_history
            ++ [({ event_id := e.event_id, event_type := e.event_type,
                   data := e } : HistoryRecord)]).drop
            (bus.event_history.length + 1 - bus.max_history) ∧
    (publish hb bus e).bus.event_history.length ≤ bus.max_history ∧
    (∀ limit, get_event_history (publish hb bus e).bus limit
        <:+ (publish hb bus e).bus.event_history) ∧
    (∀ subs hist,
      ({ subscribers := subs, event_history := hist } : EventBus).max_history
        = 1000) := by
  have hb1 := publish_bus_eq hb bus e
  have hh := add_to_history_eq bus e
  refine ⟨?_, ?_, ?_, fun subs hist => rfl⟩
  · rw [hb1, hh]
  · rw [hb1, hh]
    simp only [List.length_drop, List.length_append, List.length_cons,
      List.length_nil]
    omega
  · intro limit
    unfold get_event_history
    split
    · exact List.suffix_refl _
    · exact ⟨_, List.take_append_drop _ _⟩

/-- After _add_to_history with a positive bound, the last history entry is
the record of the event just published. -/
theorem get_history_one_after_add (bus : EventBus) (e : Event)
    (hmax : 1 ≤ bus.max_history) :
    get_event_history (add_to_history bus e) 1
      = [({ event_id := e.event_id, event_type := e.event_type,
            data := e } : HistoryRecord)] := by
  have hh := add_to_history_eq bus e
  unfold get_event_history
  rw [if_neg (by omega : ¬ (1 : Nat) = 0), hh]
  have hj : bus.event_history.length + 1 - bus.max_history
      ≤ bus.event_history.length := by omega
  rw [List.drop_append_of_le_length hj]
  have hlen : (bus.event_history.drop
        (bus.event_history.length + 1 - bus.max_history)
      ++ [({ event_id := e.event_id, event_type := e.event_type,
             data := e } : HistoryRecord)]).length - 1
      = (bus.event_history.drop
          (bus.event_history.length + 1 - bus.max_history)).length := by
    simp
  rw [hlen, List.drop_append_of_le_length (le_refl _), List.drop_length,
    List.nil_append]

/-- Claim C9: publishing an event whose type has zero subscribers never
throws: publish invokes zero handlers, logs exactly one warning, returns
normally, and the event is still appended to the history, so
get_event_history 1 afterwards is exactly the record of that event. -/
theorem C9_publish_zero_subscribers
    (hb : Nat → Event → Except String Unit) (bus : EventBus) (e : Event)
    (hsub : bus.subscribers e.event_type = [])
    (hmax : 1 ≤ bus.max_history) :
    (publish hb bus e).invocations = [] ∧
    (publish hb bus e).results = [] ∧
    (publish hb bus e).no_handler_warnings = 1 ∧
    get_event_history (publish hb bus e).bus 1
      = [({ event_id := e.event_id, event_type := e.event_type,
            data := e } : HistoryRecord)] := by
  have hsub1 := add_to_history_subscribers bus e
  have hemp : ((add_to_history bus e).subscribers e.event_type).isEmpty := by
    rw [hsub1, hsub]
    rfl
  refine ⟨?_, ?_, ?_, ?_⟩
  · simp [publish, hemp]
  · simp [publish, hemp]
  · simp [publish, hemp]
  · rw [publish_bus_eq]
    exact get_history_one_after_add bus e hmax

/-- Concrete witness for claim C9: publishing a new-video event on a bus
with no subscribers at all. -/
theorem C9_witness :
    emptyBus.subscribers (Event.newVideo sampleVideoEvent).event_type = [] ∧
    1 ≤ emptyBus.max_history ∧
    ((publish (fun _ _ => Except.ok ()) emptyBus
        (Event.newVideo sampleVideoEvent)).invocations = [] ∧
      (publish (fun _ _ => Except.ok ()) emptyBus
        (Event.newVideo sampleVideoEvent)).results = [] ∧
      (publish (fun _ _ => Except.ok ()) emptyBus
        (Event.newVideo sampleVideoEvent)).no_handler_warnings = 1 ∧
      get_event_history (publish (fun _ _ => Except.ok ()) emptyBus
        (Event.newVideo sampleVideoEvent)).bus 1
        = [({ event_id := (Event.newVideo sampleVideoEvent).event_id,
              event_type := (Event.newVideo sampleVideoEvent).event_type,
              data := Event.newVideo sampleVideoEvent } : HistoryRecord)]) :=
  ⟨rfl, by decide,
    C9_publish_zero_subscribers (fun _ _ => Except.ok ()) emptyBus
      (Event.newVideo sampleVideoEvent) rfl (by decide)⟩

/-- Claim C3: send_command_sync with wait_for_ack true and the default
2-second timeout returns false exactly when no Ack is dispatched to the
one-shot callback within 2 seconds of the call, and true exactly when one
is; the embedding is a total function, so this boolean is the only way a
send failure reaches the caller synchronously. -/
theorem C3_send_command_sync_ack_timeout (ack_dispatch_times : List ℚ)
    (dereg_time : ℚ) (hd : (2 : ℚ) ≤ dereg_time) :
    (send_command_sync_ack ack_dispatch_times 2 dereg_time = false
        ↔ ∀ t ∈ ack_dispatch_times, ¬ t ≤ 2) ∧
    (send_command_sync_ack ack_dispatch_times 2 dereg_time = true
        ↔ ∃ t ∈ ack_dispatch_times, t ≤ 2) := by
  have hmono : (ack_dispatch_times.any fun t => decide (t ≤ 2)) = true →
      (ack_dispatch_times.any fun t => decide (t ≤ dereg_time)) = true := by
    simp only [List.any_eq_true, decide_eq_true_eq]
    rintro ⟨t, ht, h2⟩
    exact ⟨t, ht, le_trans h2 hd⟩
  have hres : send_command_sync_ack ack_dispatch_times 2 dereg_time
      = (ack_dispatch_times.any fun t => decide (t ≤ 2)) := by
    unfold send_command_sync_ack
    cases hg : (ack_dispatch_times.any fun t => decide (t ≤ 2)) with
    | false => simp
    | true => simp [hmono hg]
  rw [hres]
  constructor
  · simp [List.any_eq_false]
  · simp [List.any_eq_true]

/-- Concrete witness for claim C3: an ack dispatched at instant 1 with
deregistration at instant 3. -/
theorem C3_witness :
    (2 : ℚ) ≤ 3 ∧
    ((send_command_sync_ack [1, 5] 2 3 = false
        ↔ ∀ t ∈ ([1, 5] : List ℚ), ¬ t ≤ 2) ∧
      (send_command_sync_ack [1, 5] 2 3 = true
        ↔ ∃ t ∈ ([1, 5] : List ℚ), t ≤ 2)) :=
  ⟨by norm_num, C3_send_command_sync_ack_timeout [1, 5] 3 (by norm_num)⟩

/-- Counterexample to claim C4 as stated: with the transport down and one
command in the queue, a single writer iteration removes the command from
the queue while writing nothing to the transport, and reports the failure
through the completion callback — the command leaves the system without
ever being written, so delivery during an outage is lost, not merely
delayed. -/
theorem C4_counterexample :
    outageWriterState.serial_open = false ∧
    outageWriterState.command_queue.length = 1 ∧
    (write_loop_iter outageWriterState).1.command_queue = [] ∧
    (write_loop_iter outageWriterState).1.written = [] ∧
    (write_loop_iter outageWriterState).2.2 = some false :=
  ⟨rfl, rfl, rfl, rfl, rfl⟩

/-- Claim C4 amended: the writer loop blocks on the queue, not on the
broken transport, but a dequeued command is dropped, not retried: every
iteration with a non-empty queue removes the front command
unconditionally, and when the transport is down nothing is written, the
error counter is bumped, and the completion callback (when supplied) is
invoked with failure. -/
theorem C4_writer_drops_command_on_outage (st : WriterState)
    (c : QueuedCommand) (rest : List QueuedCommand)
    (hq : st.command_queue = c :: rest)
    (hopen : st.serial_open = false) :
    (write_loop_iter st).1.command_queue = rest ∧
    (write_loop_iter st).1.written = st.written ∧
    (write_loop_iter st).1.errors = st.errors + 1 ∧
    (write_loop_iter st).2.2
      = (if c.has_callback then some false else none) := by
  refine ⟨?_, ?_, ?_, ?_⟩ <;>
    simp [write_loop_iter, hq, send_command_internal, hopen]

/-- Concrete witness for the amended claim C4, at the outage state of the
counterexample. -/
theorem C4_witness :
    outageWriterState.command_queue
      = ({ command := "HEARTBEAT:1700000000", has_callback := true }
          : QueuedCommand) :: [] ∧
    outageWriterState.serial_open = false ∧
    ((write_loop_iter outageWriterState).1.command_queue = [] ∧
      (write_loop_iter outageWriterState).1.written
        = outageWriterState.written ∧
      (write_loop_iter outageWriterState).1.errors
        = outageWriterState.errors + 1 ∧
      (write_loop_iter outageWriterState).2.2
        = (if ({ command := "HEARTBEAT:1700000000", has_callback := true }
              : QueuedCommand).has_callback then some false else none)) :=
  ⟨rfl, rfl,
    C4_writer_drops_command_on_outage outageWriterState
      { command := "HEARTBEAT:1700000000", has_callback := true } [] rfl rfl⟩

/-- Splitting into chunks and flattening back is the identity whenever the
chunk size is positive. -/
theorem chunk_list_flatten (k : Nat) (hk : k ≠ 0) (l : List α) :
    (chunk_list k l).flatten = l := by
  match k, l with
  | 0, _ => exact absurd rfl hk
  | k + 1, [] => simp [chunk_list]
  | k + 1, x :: xs =>
    have ih := chunk_list_flatten (k + 1) hk ((x :: xs).drop (k + 1))
    rw [chunk_list]
    simp only [List.flatten_cons, ih, List.take_append_drop]
termination_by l.length
decreasing_by
  simp only [List.length_drop, List.length_cons]
  omega

/-- The candidate frame indices are a filtered range, hence without
duplicates. -/
theorem candidate_frame_indices_nodup (total_frames : Nat) (fps : ℚ)
    (dts : List ℚ) : (candidate_frame_indices total_frames fps dts).Nodup :=
  (List.nodup_range total_frames).filter _

/-- Claim C5: the frame-index batches dispatched to the workers partition
the candidate set exactly: flattening the batches in order gives back
precisely the candidate list, a frame index lies in some batch exactly
when its timestamp falls within one second of some pose-hit timestamp,
and distinct batches have empty pairwise intersection. -/
theorem C5_batches_partition_candidates (total_frames max_workers : Nat)
    (fps : ℚ) (dts : List ℚ) (hfps : 0 < fps) :
    ((make_batches max_workers
        (candidate_frame_indices total_frames fps dts)).flatten
      = candidate_frame_indices total_frames fps dts) ∧
    (∀ i, i ∈ (make_batches max_workers
        (candidate_frame_indices total_frames fps dts)).flatten
      ↔ i < total_frames ∧ ∃ t ∈ dts, |(i : ℚ) / fps - t| ≤ 1) ∧
    (make_batches max_workers
        (candidate_frame_indices total_frames fps dts)).Pairwise
      List.Disjoint := by
  have hk : max 1 ((candidate_frame_indices total_frames fps dts).length
      / max_workers) ≠ 0 :=
    Nat.one_le_iff_ne_zero.mp (le_max_left 1 _)
  have hflat : (make_batches max_workers
      (candidate_frame_indices total_frames fps dts)).flatten
      = candidate_frame_indices total_frames fps dts :=
    chunk_list_flatten _ hk _
  refine ⟨hflat, ?_, ?_⟩
  · intro i
    rw [hflat]
    simp [candidate_frame_indices, List.mem_filter, List.mem_range,
      List.any_eq_true]
  · have hnodup : ((make_batches max_workers
        (candidate_frame_indices total_frames fps dts)).flatten).Nodup := by
      rw [hflat]
      exact candidate_frame_indices_nodup total_frames fps dts
    exact (List.nodup_flatten.mp hnodup).2

/-- Concrete witness for claim C5: a five-frame video at 1 fps with a
single pose hit at instant 2. -/
theorem C5_witness :
    (0 : ℚ) < 1 ∧
    (((make_batches 2 (candidate_frame_indices 5 1 [2])).flatten
        = candidate_frame_indices 5 1 [2]) ∧
      (∀ i, i ∈ (make_batches 2 (candidate_frame_indices 5 1 [2])).flatten
        ↔ i < 5 ∧ ∃ t ∈ ([2] : List ℚ), |(i : ℚ) / 1 - t| ≤ 1) ∧
      (make_batches 2 (candidate_frame_indices 5 1 [2])).Pairwise
        List.Disjoint) :=
  ⟨by norm_num, C5_batches_partition_candidates 5 2 1 [2] (by norm_num)⟩

/-- Claim C6: at most one alert per (camera, alert code) pair per cooldown
window.  With an alert row for the pair recorded at instant t, at every
instant now before t plus the cooldown the cooldown check vetoes the pair
and no alert fires whatever the frame counts; and at every instant now
after t plus the cooldown the pair is eligible again, provided no other
row for the pair was recorded after t. -/
theorem C6_alert_cooldown (db : List CameraAlertRow)
    (cooldown threshold now1 now2 t : ℚ) (camera_id : Nat)
    (alert_code : String)
    (hmem : ({ camera_id := camera_id, alert_code := alert_code,
               triggered_at := t } : CameraAlertRow) ∈ db)
    (hlt : now1 < t + cooldown)
    (hall : ∀ r ∈ db, r.camera_id = camera_id → r.alert_code = alert_code →
        r.triggered_at ≤ t)
    (hgt : t + cooldown < now2) :
    should_trigger_alert db cooldown now1 camera_id alert_code = false ∧
    (∀ count total_frames,
      alert_fires db cooldown threshold now1 camera_id alert_code count
        total_frames = false) ∧
    should_trigger_alert db cooldown now2 camera_id alert_code = true := by
  have hst : should_trigger_alert db cooldown now1 camera_id alert_code
      = false := by
    unfold should_trigger_alert
    simp only [Bool.not_eq_false', List.any_eq_true, Bool.and_eq_true,
      beq_iff_eq, decide_eq_true_eq]
    exact ⟨_, hmem, ⟨rfl, rfl⟩, by linarith⟩
  refine ⟨hst, fun count total_frames => ?_, ?_⟩
  · unfold alert_fires
    rw [hst]
    simp
  · unfold should_trigger_alert
    simp only [Bool.not_eq_true', List.any_eq_false, Bool.and_eq_true,
      beq_iff_eq, decide_eq_true_eq, not_and]
    intro r hr
    rintro ⟨h1, h2⟩ h3
    have := hall r hr h1 h2
    linarith

/-- Concrete witness for claim C6, the scenario of property P7: a
NO_HELMET alert for camera 5 recorded at t equal to 100 with a 3600-second
cooldown blocks the pair at instant 150 and frees it at instant 3701. -/
theorem C6_witness :
    (({ camera_id := 5, alert_code := "NO_HELMET", triggered_at := 100 }
        : CameraAlertRow) ∈ cooldownDb) ∧
    (150 : ℚ) < 100 + 3600 ∧
    (∀ r ∈ cooldownDb, r.camera_id = 5 → r.alert_code = "NO_HELMET" →
      r.triggered_at ≤ 100) ∧
    (100 : ℚ) + 3600 < 3701 ∧
    (should_trigger_alert cooldownDb 3600 150 5 "NO_HELMET" = false ∧
      (∀ count total_frames,
        alert_fires cooldownDb 3600 0 150 5 "NO_HELMET" count
          total_frames = false) ∧
      should_trigger_alert cooldownDb 3600 3701 5 "NO_HELMET" = true) :=
  ⟨by simp [cooldownDb], by norm_num,
    by
      intro r hr _ _
      simp only [cooldownDb, List.mem_singleton] at hr
      rw [hr],
    by norm_num,
    C6_alert_cooldown cooldownDb 3600 0 150 3701 100 5 "NO_HELMET"
      (by simp [cooldownDb]) (by norm_num)
      (by
        intro r hr _ _
        simp only [cooldownDb, List.mem_singleton] at hr
        rw [hr])
      (by norm_num)⟩

/-- Counterexample to claim C8 as stated: the response queue is bounded at
100 entries, and when it is full a line arriving after the grace period
has ended is dropped, not enqueued — even a well-formed protocol line.
Here, at instant 5 with the grace deadline at 0, a DEVICE_ID line leaves
the full queue unchanged and never reaches the callback-dispatch loop. -/
theorem C8_counterexample :
    fullReaderState.ignore_garbage_until ≤ 5 ∧
    fullReaderState.response_queue.length = response_queue_maxsize ∧
    (process_received_message 5 fullReaderState
        "DEVICE_ID:bat:12.5;temp:40").response_queue
      = fullReaderState.response_queue ∧
    (({ type := identify_message_type "DEVICE_ID:bat:12.5;temp:40",
        data := "DEVICE_ID:bat:12.5;temp:40" } : QueuedMessage)
      ∉ (process_received_message 5 fullReaderState
          "DEVICE_ID:bat:12.5;temp:40").response_queue) := by
  refine ⟨by norm_num [fullReaderState], by decide, rfl, ?_⟩
  have hq : (process_received_message 5 fullReaderState
      "DEVICE_ID:bat:12.5;temp:40").response_queue
      = fullReaderState.response_queue := rfl
  rw [hq]
  simp only [fullReaderState, List.mem_replicate]
  intro hcontra
  exact absurd (congrArg QueuedMessage.data hcontra.2) (by decide)

/-- Claim C8 amended: every line received during the boot-grace period
that starts with no allow-listed string is discarded before
classification — the response queue is unchanged, so nothing new can
reach the callback-dispatch loop and no registered callback sees it, and
only the garbage counter moves.  An identical line received after the
grace period has ended is never boot-filtered: it is classified and
enqueued for callback dispatch, provided the bounded response queue is
not full (a full queue drops any line, before and after the grace period
alike). -/
theorem C8_boot_grace_filter (st : ReaderState) (now later : ℚ)
    (line : String)
    (hnow : now < st.ignore_garbage_until)
    (hline : (valid_starts.any fun s => str_startswith line s) = false)
    (hlater : st.ignore_garbage_until ≤ later)
    (hroom : st.response_queue.length < response_queue_maxsize) :
    (process_received_message now st line
        = { st with boot_garbage_filtered := st.boot_garbage_filtered + 1 }) ∧
    (process_received_message now st line).response_queue
        = st.response_queue ∧
    process_received_message later st line
      = { st with response_queue := st.response_queue
          ++ [({ type := identify_message_type line, data := line }
                : QueuedMessage)] } := by
  have h1 : process_received_message now st line
      = { st with boot_garbage_filtered := st.boot_garbage_filtered + 1 } := by
    unfold process_received_message
    rw [if_pos hnow, hline]
    rfl
  refine ⟨h1, by rw [h1], ?_⟩
  unfold process_received_message
  rw [if_neg (not_lt.mpr hlater)]
  unfold enqueue_response
  rw [if_pos hroom]

/-- Concrete witness for the amended claim C8: the line bootnoise arriving
at instant 1, inside the grace window ending at 3, is filtered; the same
line at instant 5 is classified UNKNOWN and enqueued. -/
theorem C8_witness :
    (1 : ℚ) < graceReaderState.ignore_garbage_until ∧
    (valid_starts.any fun s => str_startswith "bootnoise" s) = false ∧
    graceReaderState.ignore_garbage_until ≤ 5 ∧
    graceReaderState.response_queue.length < response_queue_maxsize ∧
    ((process_received_message 1 graceReaderState "bootnoise"
        = { graceReaderState with boot_garbage_filtered :=
            graceReaderState.boot_garbage_filtered + 1 }) ∧
      (process_received_message 1 graceReaderState "bootnoise").response_queue
        = graceReaderState.response_queue ∧
      process_received_message 5 graceReaderState "bootnoise"
        = { graceReaderState with response_queue :=
            graceReaderState.response_queue
            ++ [({ type := identify_message_type "bootnoise",
                   data := "bootnoise" } : QueuedMessage)] }) :=
  ⟨by norm_num [graceReaderState], by decide,
    by norm_num [graceReaderState], by decide,
    C8_boot_grace_filter graceReaderState 1 5 "bootnoise"
      (by norm_num [graceReaderState]) (by decide)
      (by norm_num [graceReaderState]) (by decide)⟩

/-- Claim C10: when the freshly collected snapshot equals the last sent
status the monitoring cycle performs no transport write at all — no
command is handed to the serial manager, so a mock transport write count
stays unchanged — and a STATUS command is sent only when the snapshot
differs, in which case the cycle sends exactly the one STATUS command of
that snapshot and records it as the new current status. -/
theorem C10_status_send_only_on_change (current same diff : SystemStatus)
    (hsame : same = current) (hdiff : diff ≠ current) :
    monitoring_cycle current same = (current, []) ∧
    monitoring_cycle current diff = (diff, [status_command diff]) ∧
    (∀ snapshot, monitoring_cycle current snapshot
      = if snapshot = current then (current, [])
        else (snapshot, [status_command snapshot])) := by
  refine ⟨?_, ?_, ?_⟩
  · simp [monitoring_cycle, status_changed, hsame]
  · simp [monitoring_cycle, status_changed, hdiff]
  · intro snapshot
    by_cases he : snapshot = current <;>
      simp [monitoring_cycle, status_changed, he]

/-- Concrete witness for claim C10, the scenario of Scenario D: a
snapshot identical to the initial status is suppressed, and a snapshot
with camera 1 newly connected sends exactly one STATUS command. -/
theorem C10_witness :
    initialStatus = initialStatus ∧
    statusCam1On ≠ initialStatus ∧
    (monitoring_cycle initialStatus initialStatus = (initialStatus, []) ∧
      monitoring_cycle initialStatus statusCam1On
        = (statusCam1On, [status_command statusCam1On]) ∧
      (∀ snapshot, monitoring_cycle initialStatus snapshot
        = if snapshot = initialStatus then (initialStatus, [])
          else (snapshot, [status_command snapshot]))) :=
  ⟨rfl, by decide,
    C10_status_send_only_on_change initialStatus initialStatus statusCam1On
      rfl (by decide)⟩

end Digefx
